import Mathlib

/-!
Shallow embedding of the context/frame/query safety layer of
src/swipl/src/context.rs (crate swipl-rs).

Modelling conventions:
- A Rust panic is modelled as `Except.error msg`; normal return as `Except.ok`.
- The foreign SWI-Prolog C API (PL_* entry points) is a collaborator: calls
  to it are recorded as `FFICall` events in a returned trace, and the values
  it produces (frame ids, query ids, fresh term refs, unification outcomes,
  next-solution return codes) are passed in as explicit parameters.
- `Context<'a, T>` holds `parent: Option<&'a dyn ContextParent>`: the only
  thing ever done through that reference is mutating the parent's `activated`
  atomic flag (reactivate), so the parent reference is modelled as an owned
  snapshot of the parent context; mutation through the reference returns the
  updated parent.
- Rust's drop order for `Context<T>` runs the `Drop for Context` impl first
  (reactivating the parent) and then drops the inner `T` field, which for
  `Frame`/`Query` may issue one more foreign call; `Context.drop` models the
  whole sequence.
- Atoms, functors, modules, predicates and terms live in collaborator modules
  (atom.rs, functor.rs, module.rs, predicate.rs, term.rs, not part of this
  core); they are modelled as opaque records carrying just the data the core
  passes around.
-/

namespace Swipl

/-- An interned atom (collaborator type; `Atom::new(name)` interns by name). -/
structure Atom where
  name : String
deriving DecidableEq, Repr

/-- A functor: an atom plus an arity (collaborator type; built by
`PL_new_functor`). -/
structure Functor where
  name : Atom
  arity : Nat
deriving DecidableEq, Repr

/-- A module, looked up / created by name (collaborator type). -/
structure Module where
  name : Atom
deriving DecidableEq, Repr

/-- A predicate, resolved from a functor and a module (collaborator type). -/
structure Predicate where
  functor : Functor
  module : Module
deriving DecidableEq, Repr

/-- A term reference handle (`term_t`); the `Term` wrapper of term.rs is a
collaborator, modelled as the bare reference it wraps. -/
structure Term where
  ref : Nat
deriving DecidableEq, Repr

/-- What a term reference gets unified against in the calls this core makes
(only the shapes context.rs itself uses). -/
inductive UnifyTarget where
  | str (s : String)
  | nil
  | termArg (t : Nat)
deriving DecidableEq, Repr

/-- Foreign (collaborator) entry points invoked by the core, as trace events. -/
inductive FFICall where
  | newTermRef (r : Nat)
  | newTermRefs (n : Nat) (base : Nat)
  | openForeignFrame (fid : Nat)
  | closeForeignFrame (fid : Nat)
  | discardForeignFrame (fid : Nat)
  | rewindForeignFrame (fid : Nat)
  | unifyCall (t : Nat) (target : UnifyTarget)
  | openQueryCall (m : Option Module) (pred : Predicate) (argBase : Nat) (nargs : Nat)
  | nextSolutionCall (qid : Nat)
  | cutQuery (qid : Nat)
  | closeQuery (qid : Nat)
deriving DecidableEq, Repr

/-- `enum FrameState { Active, Discarded }` from context.rs. -/
inductive FrameState where
  | Active
  | Discarded
deriving DecidableEq, Repr

/-- `struct Frame { fid: PL_fid_t, state: FrameState }` from context.rs. -/
structure Frame where
  fid : Nat
  state : FrameState
deriving DecidableEq, Repr

/-- `struct Query { qid: qid_t, closed: bool }` from context.rs. -/
structure Query where
  qid : Nat
  closed : Bool
deriving DecidableEq, Repr

/-- The closed set of context kinds (the `T: ContextType` parameter of
`Context<'a, T>`): ActivatedEngine, UnmanagedContext, Unknown, Frame, Query. -/
inductive CtxType where
  | activatedEngine
  | unmanagedContext
  | unknown
  | frame (f : Frame)
  | query (q : Query)
deriving DecidableEq, Repr

/-- `struct Context<'a, T: ContextType> { parent, context, engine, activated }`.
The parent reference is modelled as a snapshot of the parent context (see the
file header); `engine: PL_engine_t` is an opaque pointer modelled as a `Nat`;
`activated: AtomicBool` is a `Bool`. -/
inductive Context where
  | mk (parent : Option Context) (context : CtxType) (engine : Nat) (activated : Bool)

/-- Projection: the `parent` field. -/
def Context.parent : Context → Option Context
  | .mk p _ _ _ => p

/-- Projection: the `context: T` field (the context kind payload). -/
def Context.ctype : Context → CtxType
  | .mk _ k _ _ => k

/-- Projection: the `engine` field. -/
def Context.engine : Context → Nat
  | .mk _ _ e _ => e

/-- Projection: the `activated` flag. -/
def Context.activated : Context → Bool
  | .mk _ _ _ a => a

/-- `self.activated.store(b, Ordering::Relaxed)`. -/
def Context.setActivated : Context → Bool → Context
  | .mk p k e _, b => .mk p k e b

/-- In-place mutation of the `context: T` payload (used by `discard_frame`,
`cut`, `discard`, which mutate through `mut self` before the implicit drop). -/
def Context.setCtype : Context → CtxType → Context
  | .mk p _ e a, k => .mk p k e a

/-- `Context::assert_activated`: panics with the given message when the
`activated` flag is false. -/
def Context.assert_activated (c : Context) : Except String Unit :=
  if !c.activated then .error "cannot acquire term refs from inactive context"
  else .ok ()

/-- `Context::as_unknown`: a type-erased alias with no parent, kind `Unknown`,
the same engine handle, and a fresh `activated` flag set to true. -/
def Context.as_unknown (c : Context) : Context :=
  .mk none .unknown c.engine true

/-- `Context::new_term_ref`: asserts activation, then obtains a fresh term
reference from the collaborator (`PL_new_term_ref`, whose fresh value is the
parameter) and wraps it. -/
def Context.new_term_ref (c : Context) (fresh : Nat) :
    Except String (Term × List FFICall) := do
  c.assert_activated
  pure (⟨fresh⟩, [FFICall.newTermRef fresh])

/-- `Context::wrap_term_ref`: asserts activation, then wraps an existing raw
term reference without allocating. -/
def Context.wrap_term_ref (c : Context) (t : Nat) : Except String Term := do
  c.assert_activated
  pure ⟨t⟩

/-- `Context::open_frame`: asserts activation, obtains a frame id from
`PL_open_foreign_frame` (parameter `fid`), stores `false` into the caller's
`activated` flag, and returns the child context wrapping the new `Active`
frame with `parent = Some(self)`, the caller's engine, and `activated = true`. -/
def Context.open_frame (c : Context) (fid : Nat) :
    Except String (Context × List FFICall) := do
  c.assert_activated
  pure (Context.mk (some (c.setActivated false)) (.frame ⟨fid, .Active⟩) c.engine true,
        [FFICall.openForeignFrame fid])

/-- `ContextParent::reactivate` for `Context`:
`compare_and_swap(false, true, Acquire)` on `activated`, panicking when the
previous value was already `true`. -/
def Context.reactivate (c : Context) : Except String Context :=
  if c.activated then .error "context already active"
  else .ok (c.setActivated true)

/-- `Drop for Frame`: a frame still `Active` is closed via
`PL_close_foreign_frame`; a `Discarded` frame does nothing. -/
def Frame.dropCalls (f : Frame) : List FFICall :=
  match f.state with
  | .Active => [FFICall.closeForeignFrame f.fid]
  | .Discarded => []

/-- `Drop for Query`: if `closed` is still false, `PL_close_query` is issued;
otherwise nothing. -/
def Query.dropCalls (q : Query) : List FFICall :=
  if !q.closed then [FFICall.closeQuery q.qid] else []

/-- Foreign calls issued when the inner `context: T` field is dropped (after
the `Drop for Context` impl has run). Only `Frame` and `Query` have `Drop`
impls. -/
def CtxType.dropCalls : CtxType → List FFICall
  | .frame f => f.dropCalls
  | .query q => q.dropCalls
  | _ => []

/-- Dropping a `Context<T>`: first the `Drop for Context` impl runs (if a
parent exists, `parent.reactivate()` — which may panic); then the inner
`T` field is dropped, possibly issuing one more foreign call. Returns the
updated parent (if any) and the trace of foreign calls. -/
def Context.drop (c : Context) : Except String (Option Context × List FFICall) := do
  let parent? ← match c.parent with
    | some p => Except.map some p.reactivate
    | none => pure none
  pure (parent?, c.ctype.dropCalls)

/-- `Context::<Frame>::close_frame(self)`: just `std::mem::drop(self)`. -/
def Context.close_frame (c : Context) : Except String (Option Context × List FFICall) :=
  c.drop

/-- `Context::<Frame>::discard_frame(mut self)`: sets the frame state to
`Discarded`, issues `PL_discard_foreign_frame`, then `self` is dropped at the
end of the function body (so the drop observes the `Discarded` state). -/
def Context.discard_frame (c : Context) : Except String (Option Context × List FFICall) :=
  match c.ctype with
  | .frame f => do
      let c2 := c.setCtype (.frame ⟨f.fid, .Discarded⟩)
      let (parent?, rest) ← c2.drop
      pure (parent?, FFICall.discardForeignFrame f.fid :: rest)
  | _ => .error "discard_frame requires a frame context"

/-- `Context::<Frame>::rewind_frame(&self)`: asserts activation, then issues
`PL_rewind_foreign_frame`. -/
def Context.rewind_frame (c : Context) : Except String (List FFICall) :=
  match c.ctype with
  | .frame f => do
      c.assert_activated
      pure [FFICall.rewindForeignFrame f.fid]
  | _ => .error "rewind_frame requires a frame context"

/-- `MAX_ARITY` lives in the collaborator module consts.rs. Modelled from the
spec: the fixed maximum functor arity; the panic message in context.rs itself
pins it to 1024. -/
def MAX_ARITY : Nat := 1024

/-- `ActiveEnginePromise::new_atom`: delegates to the collaborator
`Atom::new(name)`. -/
def new_atom (name : String) : Atom := ⟨name⟩

/-- `ActiveEnginePromise::new_functor`: panics if the requested arity exceeds
`MAX_ARITY`, otherwise interns the name and creates the functor via
`PL_new_functor`. The Rust `arity` parameter has type `u16`. -/
def new_functor (name : String) (arity : Nat) : Except String Functor :=
  if arity > MAX_ARITY then .error "functor arity is >1024"
  else .ok ⟨⟨name⟩, arity⟩

/-- `ActiveEnginePromise::new_module`: delegates to the collaborator
`Module::new(name)`. -/
def new_module (name : String) : Module := ⟨⟨name⟩⟩

/-- `ActiveEnginePromise::new_predicate`: delegates to the collaborator
`Predicate::new(functor, module)`. -/
def new_predicate (f : Functor) (m : Module) : Predicate := ⟨f, m⟩

/-- `QueryableContextType` is implemented exactly for `ActivatedEngine` and
`Frame`. -/
def CtxType.queryable : CtxType → Bool
  | .activatedEngine => true
  | .frame _ => true
  | _ => false

/-- The unification loop of `open_query`: for each argument, wrap the fresh
reference `terms + i` and `assert!(term.unify(args[i]))` (panic if the
collaborator reports failure; outcomes are the oracle list `okList`). -/
def unifyArgs (base : Nat) (args : List Term) (okList : List Bool) :
    Except String (List FFICall) :=
  match args, okList with
  | [], _ => .ok []
  | a :: rest, ok :: oks =>
      if ok then
        Except.map (fun t => FFICall.unifyCall base (.termArg a.ref) :: t)
          (unifyArgs (base + 1) rest oks)
      else .error "unification assertion failed in open_query"
  | _ :: _, [] => .error "missing unification oracle outcome"

/-- `Context::open_query` (on a `QueryableContextType` context): asserts
activation, allocates a block of fresh term references (`PL_new_term_refs`,
base value is the parameter `base`), unifies each with the corresponding
argument (asserting success), opens the query via `PL_open_query` (returned
query id is the parameter `qid`), stores `false` into the caller's `activated`
flag, and returns the child context wrapping `Query { qid, closed: false }`
with `parent = Some(self)` and `activated = true`. The queryability of the
context kind is a compile-time trait bound in Rust, modelled as the first
guard. -/
def Context.open_query (c : Context) (m : Option Module) (pred : Predicate)
    (args : List Term) (base qid : Nat) (okList : List Bool) :
    Except String (Context × List FFICall) := do
  if !c.ctype.queryable then
    throw "open_query requires a queryable context kind"
  c.assert_activated
  let utrace ← unifyArgs base args okList
  pure (Context.mk (some (c.setActivated false)) (.query ⟨qid, false⟩) c.engine true,
        FFICall.newTermRefs args.length base ::
          (utrace ++ [FFICall.openQueryCall m pred base args.length]))

/-- `enum QueryResult { Success, SuccessLast, Failure, Exception }`. -/
inductive QueryResult where
  | Success
  | SuccessLast
  | Failure
  | Exception
deriving DecidableEq, Repr

/-- `Context::<Query>::next_solution(&self)`: calls `PL_next_solution`
(return code is the parameter `ret`) and maps −1/0/1/2 to
Exception/Failure/Success/SuccessLast, panicking on any other code. Takes
`&self`, so the context — in particular the query's `closed` flag — is
returned unchanged. -/
def Context.next_solution (c : Context) (ret : Int) :
    Except String (QueryResult × Context) :=
  match c.ctype with
  | .query _ =>
      if ret = -1 then .ok (.Exception, c)
      else if ret = 0 then .ok (.Failure, c)
      else if ret = 1 then .ok (.Success, c)
      else if ret = 2 then .ok (.SuccessLast, c)
      else .error "unknown query result type"
  | _ => .error "next_solution requires a query context"

/-- `Context::<Query>::cut(mut self)`: issues `PL_cut_query`, sets
`closed = true`, then `self` is dropped at the end of the function body. -/
def Context.cut (c : Context) : Except String (Option Context × List FFICall) :=
  match c.ctype with
  | .query q => do
      let c2 := c.setCtype (.query ⟨q.qid, true⟩)
      let (parent?, rest) ← c2.drop
      pure (parent?, FFICall.cutQuery q.qid :: rest)
  | _ => .error "cut requires a query context"

/-- `Context::<Query>::discard(mut self)`: issues `PL_close_query`, sets
`closed = true`, then `self` is dropped at the end of the function body. -/
def Context.discard (c : Context) : Except String (Option Context × List FFICall) :=
  match c.ctype with
  | .query q => do
      let c2 := c.setCtype (.query ⟨q.qid, true⟩)
      let (parent?, rest) ← c2.drop
      pure (parent?, FFICall.closeQuery q.qid :: rest)
  | _ => .error "discard requires a query context"

/-- `Context::term_from_string` (on a queryable context): allocates a fresh
output term, builds the predicate `read_term_from_atom/3` in module `user`,
allocates `arg1`/`arg3`, asserts `arg1.unify(s)` and `arg3.unify(Nil)`
(collaborator outcomes `unifyS`, `unifyNil`), opens the query on
`[arg1, term, arg3]`, takes one solution (collaborator code `ret`), keeps the
output term only on `SuccessLast`, and concludes the query with `cut`. -/
def Context.term_from_string (c : Context) (s : String)
    (freshTerm freshArg1 freshArg3 base qid : Nat)
    (unifyS unifyNil : Bool) (okList : List Bool) (ret : Int) :
    Except String (Option Term × List FFICall) := do
  let (term, t0) ← c.new_term_ref freshTerm
  let functor_read_term_from_atom ← new_functor "read_term_from_atom" 3
  let m := new_module "user"
  let predicate := new_predicate functor_read_term_from_atom m
  let (arg1, t1) ← c.new_term_ref freshArg1
  let (arg3, t3) ← c.new_term_ref freshArg3
  if !unifyS then throw "assertion failed in term_from_string: unify with string"
  if !unifyNil then throw "assertion failed in term_from_string: unify with Nil"
  let (query, tq) ← c.open_query none predicate [arg1, term, arg3] base qid okList
  let (sol, query2) ← query.next_solution ret
  let result := match sol with
    | QueryResult.SuccessLast => some term
    | _ => none
  let (_, tc) ← query2.cut
  pure (result,
        t0 ++ t1 ++ t3 ++
          [FFICall.unifyCall arg1.ref (.str s), FFICall.unifyCall arg3.ref .nil] ++
          tq ++ [FFICall.nextSolutionCall qid] ++ tc)

/-- `Context::open_call` (on a queryable context): builds the predicate
`call/1` in module `user` and opens a query on the single goal term. -/
def Context.open_call (c : Context) (t : Term) (base qid : Nat)
    (okList : List Bool) : Except String (Context × List FFICall) := do
  let functor_call ← new_functor "call" 1
  let m := new_module "user"
  let predicate := new_predicate functor_call m
  c.open_query none predicate [t] base qid okList

/-- `Into<Context<ActivatedEngine>> for EngineActivation`: the root context
has no parent and starts activated. -/
def contextFromActivation (engine : Nat) : Context :=
  .mk none .activatedEngine engine true

/-! ### Helper lemmas -/

@[simp]
theorem Context.parent_mk (p : Option Context) (k : CtxType) (e : Nat) (a : Bool) :
    (Context.mk p k e a).parent = p := rfl

@[simp]
theorem Context.ctype_mk (p : Option Context) (k : CtxType) (e : Nat) (a : Bool) :
    (Context.mk p k e a).ctype = k := rfl

@[simp]
theorem Context.engine_mk (p : Option Context) (k : CtxType) (e : Nat) (a : Bool) :
    (Context.mk p k e a).engine = e := rfl

@[simp]
theorem Context.activated_mk (p : Option Context) (k : CtxType) (e : Nat) (a : Bool) :
    (Context.mk p k e a).activated = a := rfl

@[simp]
theorem Context.setActivated_mk (p : Option Context) (k : CtxType) (e : Nat) (a b : Bool) :
    (Context.mk p k e a).setActivated b = Context.mk p k e b := rfl

@[simp]
theorem Context.setCtype_mk (p : Option Context) (k k2 : CtxType) (e : Nat) (a : Bool) :
    (Context.mk p k e a).setCtype k2 = Context.mk p k2 e a := rfl

@[simp]
theorem exceptBind_ok {α β ε : Type} (a : α) (f : α → Except ε β) :
    (Except.ok a : Except ε α) >>= f = f a := rfl

@[simp]
theorem exceptBind_error {α β ε : Type} (e : ε) (f : α → Except ε β) :
    (Except.error e : Except ε α) >>= f = Except.error e := rfl

@[simp]
theorem exceptMap_ok {α β ε : Type} (f : α → β) (a : α) :
    Except.map f (Except.ok a : Except ε α) = Except.ok (f a) := rfl

@[simp]
theorem exceptMap_error {α β ε : Type} (f : α → β) (e : ε) :
    Except.map f (Except.error e : Except ε α) = Except.error e := rfl

@[simp]
theorem exceptFmapEqMap {α β ε : Type} (f : α → β) (x : Except ε α) :
    f <$> x = Except.map f x := rfl

/-- If every oracle outcome is true and there are enough of them, the
unification loop of open_query succeeds. -/
theorem unifyArgs_all_ok (args : List Term) :
    ∀ (okList : List Bool) (base : Nat), okList.all id = true →
      args.length ≤ okList.length → ∃ tr, unifyArgs base args okList = Except.ok tr := by
  induction args with
  | nil =>
      intro okList base _ _
      cases okList <;> exact ⟨[], rfl⟩
  | cons a rest ih =>
      intro okList base hok hlen
      cases okList with
      | nil => simp at hlen
      | cons ok oks =>
          simp only [List.all_cons, Bool.and_eq_true, id] at hok
          obtain ⟨hok1, hok2⟩ := hok
          obtain ⟨tr, htr⟩ := ih oks (base + 1) hok2 (Nat.le_of_succ_le_succ hlen)
          subst hok1
          exact ⟨FFICall.unifyCall base (.termArg a.ref) :: tr, by
            simp [unifyArgs, htr]⟩

/-! ### Claim theorems -/

/-- C9: for every context — active or not — as_unknown returns an
Unknown-kind context whose active flag is true and whose parent is None;
term-reference acquisition through the alias succeeds (never triggers the
inactive-context fault), and dropping the alias performs no reactivation and
issues no foreign call. -/
theorem C9_as_unknown_alias (c : Context) (fresh : Nat) :
    (c.as_unknown).activated = true ∧
    (c.as_unknown).parent = none ∧
    (c.as_unknown).ctype = CtxType.unknown ∧
    (c.as_unknown).new_term_ref fresh = Except.ok (⟨fresh⟩, [FFICall.newTermRef fresh]) ∧
    (c.as_unknown).drop = Except.ok (none, []) :=
  ⟨rfl, rfl, rfl, rfl, rfl⟩

/-- C3: for every context whose active flag is false, new_term_ref,
wrap_term_ref and (on a frame) rewind_frame fault; for every context whose
active flag is true, the activation assertion passes and each operation
returns successfully. -/
theorem C3_activation_assertion (c : Context) (fresh t : Nat) :
    (c.activated = false →
       (c.new_term_ref fresh).isOk = false ∧
       (c.wrap_term_ref t).isOk = false ∧
       (∀ f, c.ctype = CtxType.frame f → (c.rewind_frame).isOk = false)) ∧
    (c.activated = true →
       (c.new_term_ref fresh).isOk = true ∧
       (c.wrap_term_ref t).isOk = true ∧
       (∀ f, c.ctype = CtxType.frame f → (c.rewind_frame).isOk = true)) := by
  obtain ⟨p, k, e, a⟩ := c
  constructor
  · intro h
    simp only [Context.activated_mk] at h
    subst h
    refine ⟨rfl, rfl, ?_⟩
    intro f hf
    simp only [Context.ctype_mk] at hf
    subst hf
    rfl
  · intro h
    simp only [Context.activated_mk] at h
    subst h
    refine ⟨rfl, rfl, ?_⟩
    intro f hf
    simp only [Context.ctype_mk] at hf
    subst hf
    rfl

/-- C3 witness: at a concrete inactive and a concrete active frame context,
the operations fault resp. succeed. -/
theorem C3_activation_assertion_witness :
    ((Context.mk none (CtxType.frame ⟨7, .Active⟩) 0 false).activated = false →
       ((Context.mk none (CtxType.frame ⟨7, .Active⟩) 0 false).new_term_ref 1).isOk = false ∧
       ((Context.mk none (CtxType.frame ⟨7, .Active⟩) 0 false).wrap_term_ref 2).isOk = false ∧
       (∀ f, (Context.mk none (CtxType.frame ⟨7, .Active⟩) 0 false).ctype = CtxType.frame f →
          ((Context.mk none (CtxType.frame ⟨7, .Active⟩) 0 false).rewind_frame).isOk = false)) ∧
    ((Context.mk none (CtxType.frame ⟨7, .Active⟩) 0 false).activated = true →
       ((Context.mk none (CtxType.frame ⟨7, .Active⟩) 0 false).new_term_ref 1).isOk = true ∧
       ((Context.mk none (CtxType.frame ⟨7, .Active⟩) 0 false).wrap_term_ref 2).isOk = true ∧
       (∀ f, (Context.mk none (CtxType.frame ⟨7, .Active⟩) 0 false).ctype = CtxType.frame f →
          ((Context.mk none (CtxType.frame ⟨7, .Active⟩) 0 false).rewind_frame).isOk = true)) :=
  C3_activation_assertion (Context.mk none (CtxType.frame ⟨7, .Active⟩) 0 false) 1 2

/-- C2: dropping a context that has a parent invokes the parent's
reactivation: if the parent's active flag is false it is flipped to true and
the drop completes (also issuing the inner payload's drop calls); if the
parent's active flag is already true, reactivation faults fatally. -/
theorem C2_drop_reactivates_parent (c p : Context) (hp : c.parent = some p) :
    (p.activated = false →
       c.drop = Except.ok (some (p.setActivated true), c.ctype.dropCalls)) ∧
    (p.activated = true → c.drop = Except.error "context already active") := by
  obtain ⟨cp, ck, ce, ca⟩ := c
  obtain ⟨pp, pk, pe, pa⟩ := p
  simp only [Context.parent_mk] at hp
  subst hp
  constructor
  · intro h
    simp only [Context.activated_mk] at h
    subst h
    rfl
  · intro h
    simp only [Context.activated_mk] at h
    subst h
    rfl

/-- C2 witness: at a concrete child whose parent is inactive, drop
reactivates the parent; at one whose parent is active, drop faults. -/
theorem C2_drop_reactivates_parent_witness :
    (((Context.mk none CtxType.activatedEngine 0 false).activated = false →
        (Context.mk (some (Context.mk none CtxType.activatedEngine 0 false))
            (CtxType.frame ⟨3, .Active⟩) 0 true).drop =
          Except.ok (some ((Context.mk none CtxType.activatedEngine 0 false).setActivated true),
            (Context.mk (some (Context.mk none CtxType.activatedEngine 0 false))
                (CtxType.frame ⟨3, .Active⟩) 0 true).ctype.dropCalls)) ∧
      ((Context.mk none CtxType.activatedEngine 0 false).activated = true →
        (Context.mk (some (Context.mk none CtxType.activatedEngine 0 false))
            (CtxType.frame ⟨3, .Active⟩) 0 true).drop =
          Except.error "context already active")) ∧
    (((Context.mk none CtxType.activatedEngine 0 true).activated = false →
        (Context.mk (some (Context.mk none CtxType.activatedEngine 0 true))
            (CtxType.frame ⟨3, .Active⟩) 0 true).drop =
          Except.ok (some ((Context.mk none CtxType.activatedEngine 0 true).setActivated true),
            (Context.mk (some (Context.mk none CtxType.activatedEngine 0 true))
                (CtxType.frame ⟨3, .Active⟩) 0 true).ctype.dropCalls)) ∧
      ((Context.mk none CtxType.activatedEngine 0 true).activated = true →
        (Context.mk (some (Context.mk none CtxType.activatedEngine 0 true))
            (CtxType.frame ⟨3, .Active⟩) 0 true).drop =
          Except.error "context already active")) :=
  ⟨C2_drop_reactivates_parent
      (Context.mk (some (Context.mk none CtxType.activatedEngine 0 false))
        (CtxType.frame ⟨3, .Active⟩) 0 true)
      (Context.mk none CtxType.activatedEngine 0 false) rfl,
    C2_drop_reactivates_parent
      (Context.mk (some (Context.mk none CtxType.activatedEngine 0 true))
        (CtxType.frame ⟨3, .Active⟩) 0 true)
      (Context.mk none CtxType.activatedEngine 0 true) rfl⟩

/-- C4: on an open query context, next_solution maps the collaborator code
−1 to Exception, 0 to Failure, 1 to Success and 2 to SuccessLast, and in
every one of those four cases returns the context unchanged (the query's
closed flag stays false, so the query remains Open). -/
theorem C4_next_solution_mapping (c : Context) (q : Query)
    (hq : c.ctype = CtxType.query q) (_hopen : q.closed = false) :
    c.next_solution (-1) = Except.ok (QueryResult.Exception, c) ∧
    c.next_solution 0 = Except.ok (QueryResult.Failure, c) ∧
    c.next_solution 1 = Except.ok (QueryResult.Success, c) ∧
    c.next_solution 2 = Except.ok (QueryResult.SuccessLast, c) := by
  obtain ⟨p, k, e, a⟩ := c
  simp only [Context.ctype_mk] at hq
  subst hq
  exact ⟨rfl, rfl, rfl, rfl⟩

/-- C4 witness: the four-code mapping at a concrete open query context. -/
theorem C4_next_solution_mapping_witness :
    (Context.mk none (CtxType.query ⟨9, false⟩) 0 true).next_solution (-1) =
        Except.ok (QueryResult.Exception, Context.mk none (CtxType.query ⟨9, false⟩) 0 true) ∧
    (Context.mk none (CtxType.query ⟨9, false⟩) 0 true).next_solution 0 =
        Except.ok (QueryResult.Failure, Context.mk none (CtxType.query ⟨9, false⟩) 0 true) ∧
    (Context.mk none (CtxType.query ⟨9, false⟩) 0 true).next_solution 1 =
        Except.ok (QueryResult.Success, Context.mk none (CtxType.query ⟨9, false⟩) 0 true) ∧
    (Context.mk none (CtxType.query ⟨9, false⟩) 0 true).next_solution 2 =
        Except.ok (QueryResult.SuccessLast, Context.mk none (CtxType.query ⟨9, false⟩) 0 true) :=
  C4_next_solution_mapping (Context.mk none (CtxType.query ⟨9, false⟩) 0 true) ⟨9, false⟩ rfl rfl

/-- C10: on a query context, next_solution faults fatally on any collaborator
return code outside the set −1, 0, 1, 2, and succeeds (is total) whenever the
code is in that set. -/
theorem C10_next_solution_totality (c : Context) (q : Query)
    (hq : c.ctype = CtxType.query q) (ret : Int) :
    ((ret ≠ -1 ∧ ret ≠ 0 ∧ ret ≠ 1 ∧ ret ≠ 2) →
       c.next_solution ret = Except.error "unknown query result type") ∧
    ((ret = -1 ∨ ret = 0 ∨ ret = 1 ∨ ret = 2) →
       (c.next_solution ret).isOk = true) := by
  obtain ⟨p, k, e, a⟩ := c
  simp only [Context.ctype_mk] at hq
  subst hq
  constructor
  · rintro ⟨h1, h2, h3, h4⟩
    simp [Context.next_solution, h1, h2, h3, h4]
  · rintro (rfl | rfl | rfl | rfl) <;> rfl

/-- C10 witness: at a concrete query context, code 3 faults and code 0
succeeds. -/
theorem C10_next_solution_totality_witness :
    ((((3 : Int) ≠ -1 ∧ (3 : Int) ≠ 0 ∧ (3 : Int) ≠ 1 ∧ (3 : Int) ≠ 2) →
        (Context.mk none (CtxType.query ⟨9, false⟩) 0 true).next_solution 3 =
          Except.error "unknown query result type") ∧
      (((3 : Int) = -1 ∨ (3 : Int) = 0 ∨ (3 : Int) = 1 ∨ (3 : Int) = 2) →
        ((Context.mk none (CtxType.query ⟨9, false⟩) 0 true).next_solution 3).isOk = true)) ∧
    ((Context.mk none (CtxType.query ⟨9, false⟩) 0 true).next_solution 3 =
        Except.error "unknown query result type") :=
  ⟨C10_next_solution_totality (Context.mk none (CtxType.query ⟨9, false⟩) 0 true) ⟨9, false⟩ rfl 3,
   (C10_next_solution_totality (Context.mk none (CtxType.query ⟨9, false⟩) 0 true)
      ⟨9, false⟩ rfl 3).1 (by decide)⟩

/-- C8: new_functor faults fatally when the requested arity exceeds the
fixed maximum MAX_ARITY, and creates the functor for every arity at or below
it (the Rust parameter is a u16, hence below 2^16). -/
theorem C8_new_functor_arity_bound (name : String) (arity : Nat)
    (_h16 : arity < 65536) :
    (MAX_ARITY < arity → new_functor name arity = Except.error "functor arity is >1024") ∧
    (arity ≤ MAX_ARITY → new_functor name arity = Except.ok ⟨⟨name⟩, arity⟩) := by
  constructor
  · intro h
    simp only [new_functor, gt_iff_lt]
    rw [if_pos h]
  · intro h
    simp only [new_functor, gt_iff_lt]
    rw [if_neg (Nat.not_lt.mpr h)]

/-- C8 witness: arity 1025 faults, arity 1024 succeeds. -/
theorem C8_new_functor_arity_bound_witness :
    ((MAX_ARITY < 1025 → new_functor "f" 1025 = Except.error "functor arity is >1024") ∧
      (1025 ≤ MAX_ARITY → new_functor "f" 1025 = Except.ok ⟨⟨"f"⟩, 1025⟩)) ∧
    ((MAX_ARITY < 1024 → new_functor "g" 1024 = Except.error "functor arity is >1024") ∧
      (1024 ≤ MAX_ARITY → new_functor "g" 1024 = Except.ok ⟨⟨"g"⟩, 1024⟩)) ∧
    new_functor "f" 1025 = Except.error "functor arity is >1024" ∧
    new_functor "g" 1024 = Except.ok ⟨⟨"g"⟩, 1024⟩ :=
  ⟨C8_new_functor_arity_bound "f" 1025 (by decide),
   C8_new_functor_arity_bound "g" 1024 (by decide),
   (C8_new_functor_arity_bound "f" 1025 (by decide)).1 (by decide),
   (C8_new_functor_arity_bound "g" 1024 (by decide)).2 (by decide)⟩

/-- C1: opening a child from an active context — open_frame on any context,
or open_query on a queryable context (assuming the argument unifications the
code asserts all succeed) — returns a child context whose active flag is
true, whose parent is the caller with its active flag now false, and which
carries a copy of the caller's engine handle. -/
theorem C1_open_child_activation (c : Context) (h : c.activated = true)
    (fid : Nat) (m : Option Module) (pred : Predicate) (args : List Term)
    (base qid : Nat) (okList : List Bool) :
    (∃ child tr, c.open_frame fid = Except.ok (child, tr) ∧
       child.activated = true ∧
       child.parent = some (c.setActivated false) ∧
       (c.setActivated false).activated = false ∧
       child.engine = c.engine ∧
       child.ctype = CtxType.frame ⟨fid, FrameState.Active⟩) ∧
    (c.ctype.queryable = true → okList.all id = true → args.length ≤ okList.length →
     ∃ child tr, c.open_query m pred args base qid okList = Except.ok (child, tr) ∧
       child.activated = true ∧
       child.parent = some (c.setActivated false) ∧
       (c.setActivated false).activated = false ∧
       child.engine = c.engine ∧
       child.ctype = CtxType.query ⟨qid, false⟩) := by
  obtain ⟨p, k, e, a⟩ := c
  simp only [Context.activated_mk] at h
  subst h
  constructor
  · exact ⟨_, _, rfl, rfl, rfl, rfl, rfl, rfl⟩
  · intro hq hok hlen
    simp only [Context.ctype_mk] at hq
    obtain ⟨tr, htr⟩ := unifyArgs_all_ok args okList base hok hlen
    have heq : Context.open_query (Context.mk p k e true) m pred args base qid okList =
        Except.ok (Context.mk (some (Context.mk p k e false))
            (CtxType.query ⟨qid, false⟩) e true,
          FFICall.newTermRefs args.length base ::
            (tr ++ [FFICall.openQueryCall m pred base args.length])) := by
      simp [Context.open_query, hq, Context.assert_activated, htr]
    exact ⟨_, _, heq, rfl, rfl, rfl, rfl, rfl⟩

/-- C1 witness: opening a frame child and a query child from a concrete
active root context, and a frame child from a concrete active Unknown-kind
(non-queryable) context. -/
theorem C1_open_child_activation_witness :
    ((∃ child tr, (Context.mk none CtxType.activatedEngine 0 true).open_frame 1 =
        Except.ok (child, tr) ∧
       child.activated = true ∧
       child.parent = some ((Context.mk none CtxType.activatedEngine 0 true).setActivated false) ∧
       ((Context.mk none CtxType.activatedEngine 0 true).setActivated false).activated = false ∧
       child.engine = (Context.mk none CtxType.activatedEngine 0 true).engine ∧
       child.ctype = CtxType.frame ⟨1, FrameState.Active⟩) ∧
     ((Context.mk none CtxType.activatedEngine 0 true).ctype.queryable = true →
      ([] : List Bool).all id = true →
      ([] : List Term).length ≤ ([] : List Bool).length →
      ∃ child tr, (Context.mk none CtxType.activatedEngine 0 true).open_query none
        (new_predicate ⟨⟨"p"⟩, 0⟩ ⟨⟨"user"⟩⟩) [] 0 2 [] = Except.ok (child, tr) ∧
       child.activated = true ∧
       child.parent = some ((Context.mk none CtxType.activatedEngine 0 true).setActivated false) ∧
       ((Context.mk none CtxType.activatedEngine 0 true).setActivated false).activated = false ∧
       child.engine = (Context.mk none CtxType.activatedEngine 0 true).engine ∧
       child.ctype = CtxType.query ⟨2, false⟩)) ∧
    ((∃ child tr, (Context.mk none CtxType.unknown 0 true).open_frame 1 =
        Except.ok (child, tr) ∧
       child.activated = true ∧
       child.parent = some ((Context.mk none CtxType.unknown 0 true).setActivated false) ∧
       ((Context.mk none CtxType.unknown 0 true).setActivated false).activated = false ∧
       child.engine = (Context.mk none CtxType.unknown 0 true).engine ∧
       child.ctype = CtxType.frame ⟨1, FrameState.Active⟩) ∧
     ((Context.mk none CtxType.unknown 0 true).ctype.queryable = true →
      ([] : List Bool).all id = true →
      ([] : List Term).length ≤ ([] : List Bool).length →
      ∃ child tr, (Context.mk none CtxType.unknown 0 true).open_query none
        (new_predicate ⟨⟨"p"⟩, 0⟩ ⟨⟨"user"⟩⟩) [] 0 2 [] = Except.ok (child, tr) ∧
       child.activated = true ∧
       child.parent = some ((Context.mk none CtxType.unknown 0 true).setActivated false) ∧
       ((Context.mk none CtxType.unknown 0 true).setActivated false).activated = false ∧
       child.engine = (Context.mk none CtxType.unknown 0 true).engine ∧
       child.ctype = CtxType.query ⟨2, false⟩)) :=
  ⟨C1_open_child_activation (Context.mk none CtxType.activatedEngine 0 true) rfl 1 none
     (new_predicate ⟨⟨"p"⟩, 0⟩ ⟨⟨"user"⟩⟩) [] 0 2 [],
   C1_open_child_activation (Context.mk none CtxType.unknown 0 true) rfl 1 none
     (new_predicate ⟨⟨"p"⟩, 0⟩ ⟨⟨"user"⟩⟩) [] 0 2 []⟩

/-- C5: dropping a query context whose closed flag is still false is
behaviorally identical to an explicit discard (the very same computation:
same parent reactivation, same single PL_close_query collaborator call);
the foreign calls a drop issues are exactly the payload's dropCalls, and for
a query already concluded (closed flag true) those are empty, so drop invokes
no engine operation. -/
theorem C5_drop_is_discard (c : Context) (q : Query)
    (hq : c.ctype = CtxType.query q) :
    (q.closed = false → c.drop = c.discard) ∧
    (∀ r, c.drop = Except.ok r → r.2 = c.ctype.dropCalls) ∧
    (q.closed = true → c.ctype.dropCalls = []) := by
  obtain ⟨p, k, e, a⟩ := c
  simp only [Context.ctype_mk] at hq
  subst hq
  obtain ⟨qid, closed⟩ := q
  refine ⟨?_, ?_, ?_⟩
  · intro h
    subst h
    cases p with
    | none => rfl
    | some pp =>
        obtain ⟨p2, k2, e2, a2⟩ := pp
        cases a2 <;> rfl
  · intro r hr
    cases p with
    | none =>
        injection hr with h2
        subst h2
        rfl
    | some pp =>
        obtain ⟨p2, k2, e2, a2⟩ := pp
        cases a2 with
        | false =>
            injection hr with h2
            subst h2
            rfl
        | true => exact absurd hr (by simp [Context.drop, Context.reactivate])
  · intro h
    subst h
    rfl

/-- C5 witness: at a concrete unclosed query context drop equals discard;
at a concrete closed one the drop-time foreign calls are empty. -/
theorem C5_drop_is_discard_witness :
    ((((⟨9, false⟩ : Query).closed = false →
        (Context.mk none (CtxType.query ⟨9, false⟩) 0 true).drop =
          (Context.mk none (CtxType.query ⟨9, false⟩) 0 true).discard) ∧
      (∀ r, (Context.mk none (CtxType.query ⟨9, false⟩) 0 true).drop = Except.ok r →
        r.2 = (Context.mk none (CtxType.query ⟨9, false⟩) 0 true).ctype.dropCalls) ∧
      ((⟨9, false⟩ : Query).closed = true →
        (Context.mk none (CtxType.query ⟨9, false⟩) 0 true).ctype.dropCalls = []))) ∧
    ((((⟨9, true⟩ : Query).closed = false →
        (Context.mk none (CtxType.query ⟨9, true⟩) 0 true).drop =
          (Context.mk none (CtxType.query ⟨9, true⟩) 0 true).discard) ∧
      (∀ r, (Context.mk none (CtxType.query ⟨9, true⟩) 0 true).drop = Except.ok r →
        r.2 = (Context.mk none (CtxType.query ⟨9, true⟩) 0 true).ctype.dropCalls) ∧
      ((⟨9, true⟩ : Query).closed = true →
        (Context.mk none (CtxType.query ⟨9, true⟩) 0 true).ctype.dropCalls = []))) :=
  ⟨C5_drop_is_discard (Context.mk none (CtxType.query ⟨9, false⟩) 0 true) ⟨9, false⟩ rfl,
   C5_drop_is_discard (Context.mk none (CtxType.query ⟨9, true⟩) 0 true) ⟨9, true⟩ rfl⟩

/-- C6: discard_frame issues exactly one discard to the collaborator and —
because the state was set to Discarded first — the frame's subsequent drop
adds no further frame operation (a Discarded frame's drop calls are empty);
a frame context dropped while still Active issues exactly one close. -/
theorem C6_discard_frame_once (c : Context) (f : Frame)
    (hf : c.ctype = CtxType.frame f) :
    (∀ r, c.discard_frame = Except.ok r →
       r.2 = [FFICall.discardForeignFrame f.fid]) ∧
    Frame.dropCalls ⟨f.fid, FrameState.Discarded⟩ = [] ∧
    (f.state = FrameState.Active →
       ∀ r, c.drop = Except.ok r → r.2 = [FFICall.closeForeignFrame f.fid]) := by
  obtain ⟨p, k, e, a⟩ := c
  simp only [Context.ctype_mk] at hf
  subst hf
  obtain ⟨fid, st⟩ := f
  refine ⟨?_, rfl, ?_⟩
  · intro r hr
    cases p with
    | none =>
        injection hr with h2
        subst h2
        rfl
    | some pp =>
        obtain ⟨p2, k2, e2, a2⟩ := pp
        cases a2 with
        | false =>
            injection hr with h2
            subst h2
            rfl
        | true =>
            exact absurd hr
              (by simp [Context.discard_frame, Context.drop, Context.reactivate])
  · intro hst r hr
    subst hst
    cases p with
    | none =>
        injection hr with h2
        subst h2
        rfl
    | some pp =>
        obtain ⟨p2, k2, e2, a2⟩ := pp
        cases a2 with
        | false =>
            injection hr with h2
            subst h2
            rfl
        | true => exact absurd hr (by simp [Context.drop, Context.reactivate])

/-- C6 witness: at a concrete active frame context, discard_frame issues
exactly the single discard call and a plain drop issues exactly the single
close call. -/
theorem C6_discard_frame_once_witness :
    ((∀ r, (Context.mk none (CtxType.frame ⟨4, .Active⟩) 0 true).discard_frame =
        Except.ok r → r.2 = [FFICall.discardForeignFrame 4]) ∧
     Frame.dropCalls ⟨4, FrameState.Discarded⟩ = [] ∧
     ((⟨4, FrameState.Active⟩ : Frame).state = FrameState.Active →
        ∀ r, (Context.mk none (CtxType.frame ⟨4, .Active⟩) 0 true).drop =
          Except.ok r → r.2 = [FFICall.closeForeignFrame 4])) :=
  C6_discard_frame_once (Context.mk none (CtxType.frame ⟨4, .Active⟩) 0 true)
    ⟨4, FrameState.Active⟩ rfl

/-- C7: on an active queryable context (with the asserted unifications
succeeding, as the code assumes), term_from_string opens a query on the
fixed predicate read_term_from_atom/3 in module user with the input string,
a fresh output term and a nil options value; it returns Some of the output
term exactly when the first next_solution call yields SuccessLast (code 2)
and None on the other three codes, and in every case it concludes the query
with cut. -/
theorem C7_term_from_string_behavior (c : Context) (s : String)
    (freshTerm freshArg1 freshArg3 base qid : Nat) (ret : Int)
    (h : c.activated = true) (hq : c.ctype.queryable = true)
    (hret : ret = -1 ∨ ret = 0 ∨ ret = 1 ∨ ret = 2) :
    ∃ tr, c.term_from_string s freshTerm freshArg1 freshArg3 base qid true true
        [true, true, true] ret =
          Except.ok ((if ret = 2 then some ⟨freshTerm⟩ else none), tr) ∧
      FFICall.cutQuery qid ∈ tr ∧
      FFICall.openQueryCall none
        (new_predicate ⟨⟨"read_term_from_atom"⟩, 3⟩ ⟨⟨"user"⟩⟩) base 3 ∈ tr ∧
      FFICall.unifyCall freshArg1 (UnifyTarget.str s) ∈ tr ∧
      FFICall.unifyCall freshArg3 UnifyTarget.nil ∈ tr := by
  obtain ⟨p, k, e, a⟩ := c
  simp only [Context.activated_mk] at h
  subst h
  simp only [Context.ctype_mk] at hq
  cases k with
  | unmanagedContext => exact absurd hq (by decide)
  | unknown => exact absurd hq (by decide)
  | query q => exact absurd hq (by simp [CtxType.queryable])
  | activatedEngine =>
      rcases hret with rfl | rfl | rfl | rfl <;>
        exact ⟨_, rfl, by simp, by simp [new_predicate, new_module], by simp, by simp⟩
  | frame f =>
      rcases hret with rfl | rfl | rfl | rfl <;>
        exact ⟨_, rfl, by simp, by simp [new_predicate, new_module], by simp, by simp⟩

/-- C7 witness: parsing at a concrete active root context with solution code
2 (SuccessLast) yields the output term and a trace concluding with cut. -/
theorem C7_term_from_string_behavior_witness :
    ∃ tr, (Context.mk none CtxType.activatedEngine 0 true).term_from_string
        "foo" 1 2 3 4 5 true true [true, true, true] 2 =
          Except.ok ((if (2 : Int) = 2 then some ⟨1⟩ else none), tr) ∧
      FFICall.cutQuery 5 ∈ tr ∧
      FFICall.openQueryCall none
        (new_predicate ⟨⟨"read_term_from_atom"⟩, 3⟩ ⟨⟨"user"⟩⟩) 4 3 ∈ tr ∧
      FFICall.unifyCall 2 (UnifyTarget.str "foo") ∈ tr ∧
      FFICall.unifyCall 3 UnifyTarget.nil ∈ tr :=
  C7_term_from_string_behavior (Context.mk none CtxType.activatedEngine 0 true)
    "foo" 1 2 3 4 5 2 rfl rfl (by decide)

end Swipl
